import Mathlib

/-!
Verification of the alignment-detection engine of `skyalignments.py`.

The program's times (pyephem dates, floats counting days) are modelled as
rationals.  The external ephemeris library (pyephem) and the C math library
are black boxes for this program, so they are modelled as records of
abstract functions (`Ephem`, `World`, `MathLib`); every definition below is
a direct transcription of the corresponding Python function, threading the
single mutable `observer.date` field explicitly.
-/

/-- A waypoint, the Python list `[name, lat, lon, ele]` produced by
`read_track_file_GPX`.  Python list equality is componentwise, which is the
structural equality derived here. -/
structure Waypoint where
  name : String
  lat : ℚ
  lon : ℚ
  ele : ℚ
deriving DecidableEq, Repr

/-- The observer's mutable state that the program reads and writes: the
simulation instant `observer.date` (lat/lon/elevation are fixed per run and
never read by the core logic being verified). -/
structure Observer where
  date : ℚ
deriving DecidableEq, Repr

/-- The dict `{'rise': ..., 'set': ...}` returned by `find_rise_set`,
azimuths in decimal degrees. -/
structure RiseSet where
  rise : ℚ
  set : ℚ
deriving DecidableEq, Repr

/-- The dict `{'sun': ..., 'full moon': ...}` returned by `find_azimuths`. -/
structure Azimuths where
  sun : RiseSet
  full_moon : RiseSet
deriving DecidableEq, Repr

/-- The dict built by `find_alignments`, keyed by the four season labels in
insertion order. -/
structure SeasonTable where
  vernal_equinox : Azimuths
  summer_solstice : Azimuths
  autumnal_equinox : Azimuths
  winter_solstice : Azimuths
deriving DecidableEq, Repr

/-- The pyephem oracle for one celestial body and a fixed observer
location: `observer.previous_rising(obj)` etc. are functions of
`observer.date` only (they do not mutate the observer), and
`obj.compute(observer); obj.az` is a function `az_at` of `observer.date`
returning radians.  `degree` is the constant `ephem.degree` the code
divides by to convert radians to degrees. -/
structure Ephem where
  previous_rising : ℚ → ℚ
  next_rising : ℚ → ℚ
  previous_setting : ℚ → ℚ
  next_setting : ℚ → ℚ
  az_at : ℚ → ℚ
  degree : ℚ

/-- The remaining pyephem module-level oracle used by `find_azimuths` and
`find_alignments`: full-moon / equinox / solstice searches and the
wall-clock instant `ephem.now()`. -/
structure World where
  sun : Ephem
  moon : Ephem
  previous_full_moon : ℚ → ℚ
  next_full_moon : ℚ → ℚ
  now : ℚ
  next_equinox : ℚ → ℚ
  next_solstice : ℚ → ℚ

/-- The C math library as used by `angle_between`: `math.sin`, `math.cos`,
`math.atan2`, and the constant `ephem.degree` (radians per degree). -/
structure MathLib where
  sin : ℚ → ℚ
  cos : ℚ → ℚ
  atan2 : ℚ → ℚ → ℚ
  degree : ℚ

/-- Transcription of `nearest_time(targettime, t1, t2)` (lines 12-20).
Note that the function returns `d1` or `d2` — the absolute differences —
not `t1` or `t2`. -/
def nearest_time (targettime t1 t2 : ℚ) : ℚ :=
  let d1 := |targettime - t1|
  let d2 := |targettime - t2|
  if d1 ≤ d2 then d1 else d2

/-- Python's `%` on floats (sign of the divisor), idealized over ℚ:
`a - b * ⌊a / b⌋`. -/
def pymod (a b : ℚ) : ℚ :=
  a - b * ⌊a / b⌋

/-- Transcription of `angle_between(wp1, wp2)` (lines 70-82). -/
def angle_between (M : MathLib) (wp1 wp2 : Waypoint) : ℚ :=
  let lat1 := wp1.lat
  let lon1 := wp1.lon
  let lat2 := wp2.lat
  let lon2 := wp2.lon
  let dlon := lon2 - lon1
  let y := M.sin dlon * M.cos lat2
  let x := M.cos lat1 * M.sin lat2 - M.sin lat1 * M.cos lat2 * M.cos dlon
  pymod (360 - M.atan2 y x / M.degree) 360

/-- The great-circle initial-bearing formula exactly as the specification
states it (spec section 4.1): Δλ = λB − λA; y = sin(Δλ)·cos(φB);
x = cos(φA)·sin(φB) − sin(φA)·cos(φB)·cos(Δλ);
bearing = (360 − atan2(y, x) in degrees) mod 360. -/
def bearing_spec (M : MathLib) (wpA wpB : Waypoint) : ℚ :=
  let dl := wpB.lon - wpA.lon
  let y := M.sin dl * M.cos wpB.lat
  let x := M.cos wpA.lat * M.sin wpB.lat - M.sin wpA.lat * M.cos wpB.lat * M.cos dl
  pymod (360 - M.atan2 y x / M.degree) 360

/-- Transcription of `find_rise_set(observer, obj, d)` (lines 23-46),
returning the rise/set dict together with the observer state it leaves
behind.  `if d:` is Python truthiness, so `d = 0` leaves the date alone. -/
def find_rise_set (E : Ephem) (observer : Observer) (d : Option ℚ) : RiseSet × Observer :=
  let date0 : ℚ :=
    match d with
    | some dd => if dd = 0 then observer.date else dd
    | none => observer.date
  let prevrise := E.previous_rising date0
  let nextrise := E.next_rising date0
  let prevset := E.previous_setting date0
  let nextset := E.next_setting date0
  let risetime := nearest_time date0 prevrise nextrise
  let date1 := risetime
  let rise_az := E.az_at date1
  let settime := nearest_time date1 prevset nextset
  let date2 := settime
  let set_az := E.az_at date2
  ({ rise := rise_az / E.degree, set := set_az / E.degree }, { date := date2 })

/-- The full-moon choice made at lines 60-63:
`if now - lastfull > nextfull - now: date = nextfull else: date = lastfull`. -/
def choose_full_moon (now lastfull nextfull : ℚ) : ℚ :=
  if now - lastfull > nextfull - now then nextfull else lastfull

/-- Transcription of `find_azimuths(observer)` (lines 49-67), returning the
riseset dict and the final observer state. -/
def find_azimuths (W : World) (observer : Observer) : Azimuths × Observer :=
  let sunr := find_rise_set W.sun observer none
  let observer1 := sunr.2
  let lastfull := W.previous_full_moon observer1.date
  let nextfull := W.next_full_moon observer1.date
  let observer2 : Observer := { date := choose_full_moon W.now lastfull nextfull }
  let moonr := find_rise_set W.moon observer2 none
  ({ sun := sunr.1, full_moon := moonr.1 }, moonr.2)

/-- The seasonal part of `find_alignments` (lines 92-106): the four
`observer.date = ephem.next_*(...)` assignments interleaved with
`find_azimuths` calls.  Returns the four instants assigned at lines
96, 99, 102, 105 together with the azimuth table.  `start_date` stands for
`ephem.Date('1/1/%d' % year)`. -/
def find_alignments_table (W : World) (start_date : ℚ) :
    (ℚ × ℚ × ℚ × ℚ) × SeasonTable :=
  let t1 := W.next_equinox start_date
  let r1 := find_azimuths W { date := t1 }
  let t2 := W.next_solstice r1.2.date
  let r2 := find_azimuths W { date := t2 }
  let t3 := W.next_equinox r2.2.date
  let r3 := find_azimuths W { date := t3 }
  let t4 := W.next_solstice r3.2.date
  let r4 := find_azimuths W { date := t4 }
  ((t1, t2, t3, t4),
   { vernal_equinox := r1.1, summer_solstice := r2.1,
     autumnal_equinox := r3.1, winter_solstice := r4.1 })

/-- `DEGREESLOP = 2.` (line 111). -/
def DEGREESLOP : ℚ := 2

/-- The triple nested iteration `for season in azimuths: for body: for
event:` over the table, in Python dict insertion order, paired with the
label `'%s %s%s' % (season, body, event)` built at line 128. -/
def table_entries (tbl : SeasonTable) : List (String × ℚ) :=
  [("vernal equinox sunrise", tbl.vernal_equinox.sun.rise),
   ("vernal equinox sunset", tbl.vernal_equinox.sun.set),
   ("vernal equinox full moonrise", tbl.vernal_equinox.full_moon.rise),
   ("vernal equinox full moonset", tbl.vernal_equinox.full_moon.set),
   ("summer solstice sunrise", tbl.summer_solstice.sun.rise),
   ("summer solstice sunset", tbl.summer_solstice.sun.set),
   ("summer solstice full moonrise", tbl.summer_solstice.full_moon.rise),
   ("summer solstice full moonset", tbl.summer_solstice.full_moon.set),
   ("autumnal equinox sunrise", tbl.autumnal_equinox.sun.rise),
   ("autumnal equinox sunset", tbl.autumnal_equinox.sun.set),
   ("autumnal equinox full moonrise", tbl.autumnal_equinox.full_moon.rise),
   ("autumnal equinox full moonset", tbl.autumnal_equinox.full_moon.set),
   ("winter solstice sunrise", tbl.winter_solstice.sun.rise),
   ("winter solstice sunset", tbl.winter_solstice.sun.set),
   ("winter solstice full moonrise", tbl.winter_solstice.full_moon.rise),
   ("winter solstice full moonset", tbl.winter_solstice.full_moon.set)]

/-- The ordered pairs visited by the nested loop at lines 116-119:
`for wp1 in waypoints: for wp2 in waypoints: if wp1 == wp2: continue`. -/
def enum_pairs (wps : List Waypoint) : List (Waypoint × Waypoint) :=
  wps.flatMap (fun wp1 => wps.flatMap (fun wp2 =>
    if wp1 = wp2 then [] else [(wp1, wp2)]))

/-- One tolerance test at line 126:
`if abs(azimuths[season][body][event] - angle) < DEGREESLOP`, appending
`[wp1[0], wp2[0], label]` on success. -/
def match_entry (angle : ℚ) (wp1 wp2 : Waypoint) (e : String × ℚ) :
    Option (String × String × String) :=
  if |e.2 - angle| < DEGREESLOP then some (wp1.name, wp2.name, e.1) else none

/-- The matching loop of `find_alignments` (lines 115-128) over an already
built azimuth table. -/
def find_matches (M : MathLib) (tbl : SeasonTable) (wps : List Waypoint) :
    List (String × String × String) :=
  (enum_pairs wps).flatMap (fun p =>
    (table_entries tbl).filterMap (match_entry (angle_between M p.1 p.2) p.1 p.2))

/-- The whole of `find_alignments(observer, waypoints)` (lines 85-131):
build the seasonal table starting from the observer, then run the matcher. -/
def find_alignments (M : MathLib) (W : World) (start_date : ℚ)
    (wps : List Waypoint) : List (String × String × String) :=
  find_matches M (find_alignments_table W start_date).2 wps

/-- A `<wpt>` DOM element as the loader reads it: the `lat`/`lon`
attributes (already parsed — the program applies `float` to them outside
any `try`), and the text of the optional `<ele>` and `<name>` children as
`get_DOM_text` returns them (`none` when the child or its text node is
absent). -/
structure WptElement where
  lat : ℚ
  lon : ℚ
  eleText : Option String
  nameText : Option String
deriving DecidableEq, Repr

/-- Lines 153-156: `try: ele = float(get_DOM_text(pt, "ele")) except: ele =
500`.  `pf` models Python's `float` on a string (`none` = raises);
`float(None)` raises `TypeError`, also caught. -/
def get_ele (pf : String → Option ℚ) (e : WptElement) : ℚ :=
  match e.eleText with
  | none => 500
  | some s =>
    match pf s with
    | none => 500
    | some v => v

/-- Lines 158-161: `name = get_DOM_text(pt, "name"); if not name: pointno
+= 1; name = "Point %d" % pointno`.  Returns the chosen name and the
updated counter; `""` and `None` are both falsy. -/
def wpt_name (e : WptElement) (pointno : Nat) : String × Nat :=
  match e.nameText with
  | none => ("Point " ++ toString (pointno + 1), pointno + 1)
  | some s =>
    if s = "" then ("Point " ++ toString (pointno + 1), pointno + 1) else (s, pointno)

/-- The `for pt in waypts:` loop of `read_track_file_GPX` (lines 150-165),
threading the `pointno` counter and the `observer` variable (set to the
element whose lowercased name is `"observer"`; the last such element
wins). -/
def process_wpts (pf : String → Option ℚ) :
    List WptElement → Nat → Option WptElement → List Waypoint × Option WptElement
  | [], _, obs => ([], obs)
  | e :: rest, pointno, obs =>
    let np := wpt_name e pointno
    let w : Waypoint := { name := np.1, lat := e.lat, lon := e.lon, ele := get_ele pf e }
    let obs1 := if np.1.toLower = "observer" then some e else obs
    let r := process_wpts pf rest np.2 obs1
    (w :: r.1, r.2)

/-- What `read_track_file_GPX` actually returns: a bare empty list on the
`if not waypts: return []` path (line 146), and an `(observer, waypoints)`
pair otherwise (line 168).  The two shapes are distinct Python values, so
the model is a sum. -/
inductive GPXResult where
  | emptyList : GPXResult
  | pair (observer : Option WptElement) (waypoints : List Waypoint) : GPXResult
deriving DecidableEq

/-- Transcription of `read_track_file_GPX` (lines 134-168) on the parsed
list of `<wpt>` elements of the file. -/
def read_track_file_GPX (pf : String → Option ℚ) (waypts : List WptElement) : GPXResult :=
  if waypts.isEmpty then .emptyList
  else
    let r := process_wpts pf waypts 0 none
    .pair r.2 r.1

/-- Outcome of the waypoint-loading part of `__main__` (lines 227-239):
either an uncaught exception (non-zero exit, traceback, no report), the
`print_help(); sys.exit(1)` path for no waypoints, or normal continuation
into the ephemeris queries. -/
inductive RunOutcome where
  | uncaught (msg : String)
  | noWaypointsExit
  | proceed (observerPoint : Option WptElement) (waypoints : List Waypoint)
deriving DecidableEq

/-- Transcription of the `for filename in args.gpxfiles:` loop (lines
228-235) followed by the `if not waypoints:` check (lines 237-239).  The
statement `obs, wp = read_track_file_GPX(filename)` unpacks exactly two
values, so the bare `[]` return raises `ValueError` (0 values into 2). -/
def main_load (pf : String → Option ℚ) :
    List (List WptElement) → Option WptElement → List Waypoint → RunOutcome
  | [], obs, wps => if wps.isEmpty then .noWaypointsExit else .proceed obs wps
  | f :: rest, obs, wps =>
    match read_track_file_GPX pf f with
    | .emptyList => .uncaught "ValueError: not enough values to unpack"
    | .pair o wp =>
      let wps1 := wps ++ wp
      let obs1 := match o with | some e => some e | none => obs
      main_load pf rest obs1 wps1

/-- A concrete `Ephem` oracle with `observer.date = 10`, previous/next
rising 9/12, previous/next setting 8/11, and a body azimuth that reads back
the query instant in degrees (`az_at t = t·degree`). -/
def E1 : Ephem :=
  { previous_rising := fun _ => 9, next_rising := fun _ => 12,
    previous_setting := fun _ => 8, next_setting := fun _ => 11,
    az_at := fun t => t / 60, degree := 1 / 60 }

/-- A generic body oracle: rise/set within a day of any query instant,
azimuth constantly 0. -/
def Eph0 : Ephem :=
  { previous_rising := fun d => d - 1/3, next_rising := fun d => d + 2/3,
    previous_setting := fun d => d - 1/4, next_setting := fun d => d + 3/4,
    az_at := fun _ => 0, degree := 1 / 60 }

/-- A concrete `World` oracle satisfying the basic ephemeris contracts
(previous events strictly before the query instant, next events strictly
after) under which the seasonal chain of `find_alignments` goes backwards. -/
def W2 : World :=
  { sun := Eph0, moon := Eph0,
    previous_full_moon := fun d => d - 25, next_full_moon := fun d => d + 4,
    now := 0, next_equinox := fun d => d + 80, next_solstice := fun d => d + 20 }

/-- A concrete `World` for exercising the full-moon choice: full moons 10
days before and 3 days after any instant, wall clock far in the future. -/
def W4 : World :=
  { sun := Eph0, moon := Eph0,
    previous_full_moon := fun d => d - 10, next_full_moon := fun d => d + 3,
    now := 1000, next_equinox := fun d => d + 1, next_solstice := fun d => d + 1 }

/-- A concrete math oracle whose `atan2` always returns 1 radian-unit with
`degree = 1`, so every bearing is `(360 - 1) % 360 = 359`. -/
def M6 : MathLib :=
  { sin := fun _ => 0, cos := fun _ => 0, atan2 := fun _ _ => 1, degree := 1 }

/-- Two distinct concrete waypoints. -/
def wpA : Waypoint := { name := "A", lat := 1, lon := 2, ele := 3 }

/-- Two distinct concrete waypoints. -/
def wpB : Waypoint := { name := "B", lat := 4, lon := 5, ele := 6 }

/-- A table whose sixteen azimuth entries all equal 1 degree. -/
def tbl6 : SeasonTable :=
  let r : RiseSet := { rise := 1, set := 1 }
  let a : Azimuths := { sun := r, full_moon := r }
  { vernal_equinox := a, summer_solstice := a, autumnal_equinox := a, winter_solstice := a }

/-- A body oracle whose azimuth is constantly 7 with `degree = 1`, for
instantiating the azimuth-range theorem. -/
def E9 : Ephem :=
  { previous_rising := fun d => d - 1/3, next_rising := fun d => d + 2/3,
    previous_setting := fun d => d - 1/4, next_setting := fun d => d + 3/4,
    az_at := fun _ => 7, degree := 1 }

/-- A `<wpt>` element with no `<ele>` child. -/
def e0 : WptElement := { lat := 33, lon := -105, eleText := none, nameText := some "Peak" }

lemma pymod_nonneg (a b : ℚ) (hb : 0 < b) : 0 ≤ pymod a b := by
  have h1 : ((⌊a / b⌋ : ℚ)) ≤ a / b := Int.floor_le _
  have h2 : b * ((⌊a / b⌋ : ℚ)) ≤ b * (a / b) := mul_le_mul_of_nonneg_left h1 hb.le
  have h3 : b * (a / b) = a := by field_simp
  unfold pymod
  linarith

lemma pymod_lt (a b : ℚ) (hb : 0 < b) : pymod a b < b := by
  have h1 : a / b < (⌊a / b⌋ : ℚ) + 1 := Int.lt_floor_add_one _
  have h2 : b * (a / b) < b * ((⌊a / b⌋ : ℚ) + 1) := (mul_lt_mul_left hb).mpr h1
  have h3 : b * (a / b) = a := by field_simp
  rw [h3, mul_add, mul_one] at h2
  unfold pymod
  linarith

lemma mem_enum_pairs (wps : List Waypoint) (a b : Waypoint) :
    (a, b) ∈ enum_pairs wps ↔ a ∈ wps ∧ b ∈ wps ∧ a ≠ b := by
  unfold enum_pairs
  simp only [List.mem_flatMap]
  constructor
  · rintro ⟨x, hx, y, hy, hmem⟩
    by_cases hxy : x = y
    · simp [hxy] at hmem
    · simp only [if_neg hxy, List.mem_singleton, Prod.mk.injEq] at hmem
      obtain ⟨rfl, rfl⟩ := hmem
      exact ⟨hx, hy, hxy⟩
  · rintro ⟨ha, hb, hne⟩
    exact ⟨a, ha, b, hb, by simp [hne]⟩

lemma match_entry_eq_some (angle : ℚ) (a b : Waypoint) (e : String × ℚ)
    (m : String × String × String) :
    match_entry angle a b e = some m ↔
      |e.2 - angle| < DEGREESLOP ∧ m = (a.name, b.name, e.1) := by
  unfold match_entry
  split_ifs with h <;> simp [h, eq_comm]

lemma choose_full_moon_eq (now l n : ℚ) (hln : l < n) :
    (|now - l| < |now - n| → choose_full_moon now l n = l)
    ∧ (|now - n| < |now - l| → choose_full_moon now l n = n) := by
  unfold choose_full_moon
  constructor
  · intro h
    rw [if_neg]
    intro hgt
    rcases abs_cases (now - l) with ⟨h1, h2⟩ | ⟨h1, h2⟩ <;>
      rcases abs_cases (now - n) with ⟨h3, h4⟩ | ⟨h3, h4⟩ <;>
      rw [h1, h3] at h <;> linarith
  · intro h
    have hc : now - l > n - now := by
      rcases abs_cases (now - l) with ⟨h1, h2⟩ | ⟨h1, h2⟩ <;>
        rcases abs_cases (now - n) with ⟨h3, h4⟩ | ⟨h3, h4⟩ <;>
        rw [h3, h1] at h <;> linarith
    rw [if_pos hc]

lemma process_wpts_length (pf : String → Option ℚ) :
    ∀ (l : List WptElement) (pointno : Nat) (obs : Option WptElement),
      (process_wpts pf l pointno obs).1.length = l.length
  | [], _, _ => rfl
  | e :: rest, pointno, obs => by
    simp [process_wpts, process_wpts_length pf rest]

/-- C1: the claim says `find_rise_set` selects whichever of the previous
and next candidate instants is nearest the target, sets the observer's
date to that instant and computes the azimuth there.  In the code
`nearest_time` returns the absolute difference (contradicting its own
docstring), so with target 10 and rise candidates 9/12 the observer's date
becomes 1, not 9, and the azimuths are evaluated at 1 and 7 instead of at
the candidate instants 9 and 11. -/
theorem nearest_time_returns_difference_not_instant :
    nearest_time 10 9 12 = 1
    ∧ nearest_time 10 9 12 ≠ 9 ∧ nearest_time 10 9 12 ≠ 12
    ∧ find_rise_set E1 { date := 10 } none = ({ rise := 1, set := 7 }, { date := 7 })
    ∧ (find_rise_set E1 { date := 10 } none).1.rise ≠ E1.az_at 9 / E1.degree
    ∧ (find_rise_set E1 { date := 10 } none).1.set ≠ E1.az_at 11 / E1.degree := by
  norm_num [nearest_time, find_rise_set, E1]

/-- C2: the claim says the four seasonal instants form a strict forward
chain (each `next_*` applied to the previous chain result) and are strictly
increasing.  In the code each `next_*` is applied to `observer.date` as
mutated by the intervening `find_azimuths` call, so under the oracle `W2`
(which satisfies previous-before / next-after for every query) the second
instant is neither `next_solstice` of the first nor after it. -/
theorem seasonal_chain_not_forward_chain :
    (find_alignments_table W2 100).1.1 = W2.next_equinox 100
    ∧ (find_alignments_table W2 100).1.2.1 ≠ W2.next_solstice ((find_alignments_table W2 100).1.1)
    ∧ (find_alignments_table W2 100).1.2.1 < (find_alignments_table W2 100).1.1 := by
  norm_num [find_alignments_table, find_azimuths, find_rise_set, nearest_time,
            choose_full_moon, W2, Eph0, abs_of_nonneg, abs_of_nonpos]

/-- C3: the claim says an input file with zero `<wpt>` elements makes the
loader return an empty waypoint sequence and the run report "no waypoints"
and exit non-zero.  The loader's zero-waypoint path returns a bare `[]`
where every other path returns an `(observer, waypoints)` pair, so the
caller's two-target unpacking raises `ValueError` and the run dies with a
traceback instead of reaching the no-waypoints report. -/
theorem empty_wpt_file_raises_unpack_error (pf : String → Option ℚ) :
    main_load pf [[]] none [] = .uncaught "ValueError: not enough values to unpack"
    ∧ main_load pf [[]] none [] ≠ .noWaypointsExit := by
  have h1 : main_load pf [[]] none [] =
      RunOutcome.uncaught "ValueError: not enough values to unpack" := rfl
  refine ⟨h1, ?_⟩
  rw [h1]
  intro h
  exact RunOutcome.noConfusion h

/-- C4: the full moon whose rise/set is resolved is whichever of the
previous/next full moon (relative to the observer's current instant after
the sun computation) is strictly closer to the wall-clock `ephem.now()`
instant. -/
theorem full_moon_anchored_to_now (W : World) (observer : Observer)
    (hln : W.previous_full_moon (find_rise_set W.sun observer none).2.date <
           W.next_full_moon (find_rise_set W.sun observer none).2.date) :
    (|W.now - W.previous_full_moon (find_rise_set W.sun observer none).2.date| <
        |W.now - W.next_full_moon (find_rise_set W.sun observer none).2.date| →
      (find_azimuths W observer).1.full_moon =
        (find_rise_set W.moon
          { date := W.previous_full_moon (find_rise_set W.sun observer none).2.date } none).1)
    ∧ (|W.now - W.next_full_moon (find_rise_set W.sun observer none).2.date| <
        |W.now - W.previous_full_moon (find_rise_set W.sun observer none).2.date| →
      (find_azimuths W observer).1.full_moon =
        (find_rise_set W.moon
          { date := W.next_full_moon (find_rise_set W.sun observer none).2.date } none).1) := by
  set l := W.previous_full_moon (find_rise_set W.sun observer none).2.date
  set n := W.next_full_moon (find_rise_set W.sun observer none).2.date
  have key : (find_azimuths W observer).1.full_moon =
      (find_rise_set W.moon { date := choose_full_moon W.now l n } none).1 := rfl
  constructor
  · intro h
    rw [key, (choose_full_moon_eq W.now l n hln).1 h]
  · intro h
    rw [key, (choose_full_moon_eq W.now l n hln).2 h]

/-- C4 witness: a concrete oracle where the next full moon is the one
closer to the wall clock and is therefore the one resolved. -/
theorem full_moon_anchored_to_now_witness :
    (W4.previous_full_moon (find_rise_set W4.sun { date := 50 } none).2.date <
       W4.next_full_moon (find_rise_set W4.sun { date := 50 } none).2.date)
    ∧ |W4.now - W4.next_full_moon (find_rise_set W4.sun { date := 50 } none).2.date| <
        |W4.now - W4.previous_full_moon (find_rise_set W4.sun { date := 50 } none).2.date|
    ∧ (find_azimuths W4 { date := 50 }).1.full_moon =
        (find_rise_set W4.moon
          { date := W4.next_full_moon (find_rise_set W4.sun { date := 50 } none).2.date } none).1 :=
  ⟨by norm_num [find_rise_set, nearest_time, W4, Eph0, abs_of_nonneg, abs_of_nonpos],
   by norm_num [find_rise_set, nearest_time, W4, Eph0, abs_of_nonneg, abs_of_nonpos],
   (full_moon_anchored_to_now W4 { date := 50 }
       (by norm_num [find_rise_set, nearest_time, W4, Eph0, abs_of_nonneg, abs_of_nonpos])).2
     (by norm_num [find_rise_set, nearest_time, W4, Eph0, abs_of_nonneg, abs_of_nonpos])⟩

/-- C5: a triple is emitted by the matcher exactly when it comes from an
ordered pair of distinct waypoints and a table entry whose azimuth differs
from the pair's bearing by strictly less than 2 degrees. -/
theorem find_matches_mem_iff (M : MathLib) (tbl : SeasonTable) (wps : List Waypoint)
    (m : String × String × String) :
    m ∈ find_matches M tbl wps ↔
      ∃ a b e, a ∈ wps ∧ b ∈ wps ∧ a ≠ b ∧ e ∈ table_entries tbl ∧
        |e.2 - angle_between M a b| < 2 ∧ m = (a.name, b.name, e.1) := by
  unfold find_matches
  simp only [List.mem_flatMap, List.mem_filterMap]
  constructor
  · rintro ⟨p, hp, e, he, hme⟩
    rw [match_entry_eq_some] at hme
    obtain ⟨hlt, rfl⟩ := hme
    obtain ⟨ha, hb, hne⟩ := (mem_enum_pairs wps p.1 p.2).mp (by simpa using hp)
    exact ⟨p.1, p.2, e, ha, hb, hne, he, by simpa [DEGREESLOP] using hlt, rfl⟩
  · rintro ⟨a, b, e, ha, hb, hne, he, hlt, rfl⟩
    refine ⟨(a, b), (mem_enum_pairs wps a b).mpr ⟨ha, hb, hne⟩, e, he, ?_⟩
    rw [match_entry_eq_some]
    exact ⟨by simpa [DEGREESLOP] using hlt, rfl⟩

/-- C6: the tolerance comparison is a plain degree subtraction with no
wraparound at the 0/360 seam: a pair whose bearing is 359 degrees does not
match a table whose every event azimuth is 1 degree, although the two
directions are 2 degrees apart on the circle. -/
theorem no_wraparound_at_seam :
    angle_between M6 wpA wpB = 359
    ∧ ("vernal equinox sunrise", (1 : ℚ)) ∈ table_entries tbl6
    ∧ find_matches M6 tbl6 [wpA, wpB] = [] := by
  refine ⟨?_, ?_, ?_⟩
  · norm_num [angle_between, pymod, M6, wpA, wpB]
  · simp [table_entries, tbl6]
  · norm_num [find_matches, enum_pairs, table_entries, match_entry, DEGREESLOP,
              angle_between, pymod, M6, wpA, wpB, tbl6]

/-- C7: the bearing calculator computes exactly the spec's great-circle
initial-bearing formula (Δλ = λB − λA, (360 − atan2(y,x) in degrees) mod
360) and its value always lies in [0, 360). -/
theorem angle_between_matches_spec_and_range (M : MathLib) (wp1 wp2 : Waypoint) :
    angle_between M wp1 wp2 = bearing_spec M wp1 wp2
    ∧ 0 ≤ angle_between M wp1 wp2 ∧ angle_between M wp1 wp2 < 360 := by
  refine ⟨rfl, ?_, ?_⟩
  · exact pymod_nonneg _ _ (by norm_num)
  · exact pymod_lt _ _ (by norm_num)

/-- C8: the matcher's pair loop visits exactly the ordered pairs of
waypoints that are distinct under value equality: both (A,B) and (B,A)
occur for A ≠ B, and no waypoint is paired with itself. -/
theorem enum_pairs_mem_iff (wps : List Waypoint) (a b : Waypoint) :
    (a, b) ∈ enum_pairs wps ↔ a ∈ wps ∧ b ∈ wps ∧ a ≠ b :=
  mem_enum_pairs wps a b

/-- C9: provided the ephemeris oracle reports azimuths in [0, 2π) radians
(that is, in [0, 360·degree)), both azimuths returned by `find_rise_set`
lie in [0, 360) degrees. -/
theorem rise_set_azimuths_in_range (E : Ephem) (observer : Observer) (d : Option ℚ)
    (hdeg : 0 < E.degree) (haz : ∀ t, 0 ≤ E.az_at t ∧ E.az_at t < 360 * E.degree) :
    (0 ≤ (find_rise_set E observer d).1.rise ∧ (find_rise_set E observer d).1.rise < 360)
    ∧ (0 ≤ (find_rise_set E observer d).1.set ∧ (find_rise_set E observer d).1.set < 360) := by
  have key : ∀ t : ℚ, 0 ≤ E.az_at t / E.degree ∧ E.az_at t / E.degree < 360 := by
    intro t
    obtain ⟨h0, h1⟩ := haz t
    refine ⟨div_nonneg h0 hdeg.le, (div_lt_iff₀ hdeg).mpr ?_⟩
    linarith
  exact ⟨key _, key _⟩

/-- C9 witness: the azimuth-range theorem applied to a concrete oracle. -/
theorem rise_set_azimuths_in_range_witness :
    (0 < E9.degree ∧ (∀ t, 0 ≤ E9.az_at t ∧ E9.az_at t < 360 * E9.degree))
    ∧ ((0 ≤ (find_rise_set E9 { date := 10 } none).1.rise
          ∧ (find_rise_set E9 { date := 10 } none).1.rise < 360)
        ∧ (0 ≤ (find_rise_set E9 { date := 10 } none).1.set
          ∧ (find_rise_set E9 { date := 10 } none).1.set < 360)) :=
  ⟨⟨by norm_num [E9], by intro t; norm_num [E9]⟩,
   rise_set_azimuths_in_range E9 { date := 10 } none (by norm_num [E9])
     (by intro t; norm_num [E9])⟩

/-- C10: a `<wpt>` element whose `<ele>` text is absent or unparsable still
yields a waypoint record (it is the next record emitted, and the output has
one record per element) with elevation defaulted to 500 and the element's
latitude/longitude untouched. -/
theorem missing_ele_defaults_500 (pf : String → Option ℚ) (e : WptElement)
    (rest : List WptElement) (pointno : Nat) (obs : Option WptElement)
    (h : e.eleText = none ∨ ∃ s, e.eleText = some s ∧ pf s = none) :
    (process_wpts pf (e :: rest) pointno obs).1.head? =
      some { name := (wpt_name e pointno).1, lat := e.lat, lon := e.lon, ele := 500 }
    ∧ (process_wpts pf (e :: rest) pointno obs).1.length = rest.length + 1 := by
  have hele : get_ele pf e = 500 := by
    rcases h with h | ⟨s, hs, hpf⟩
    · simp [get_ele, h]
    · simp [get_ele, hs, hpf]
  constructor
  · simp [process_wpts, hele]
  · simp [process_wpts, process_wpts_length pf rest]

/-- C10 witness: a concrete element with no `<ele>` child gets elevation
500 and keeps its coordinates. -/
theorem missing_ele_defaults_500_witness :
    (e0.eleText = none ∨ ∃ s, e0.eleText = some s ∧ (fun _ => (none : Option ℚ)) s = none)
    ∧ ((process_wpts (fun _ => none) [e0] 0 none).1.head? =
        some { name := (wpt_name e0 0).1, lat := e0.lat, lon := e0.lon, ele := 500 }
      ∧ (process_wpts (fun _ => none) [e0] 0 none).1.length = ([] : List WptElement).length + 1) :=
  ⟨Or.inl rfl, missing_ele_defaults_500 (fun _ => none) e0 [] 0 none (Or.inl rfl)⟩
